import Mathlib

/-!
Verification of the EFI/GRUB bootloader reconfiguration actions of
convert2rhel (`convert2rhel/actions/conversion/set_efi_config.py`).

The host filesystem is modelled as an association list from absolute path
to entry (regular file with content, or directory).  Each action's `run`
method is embedded as a pure function from its external inputs (system id,
EFI mode, the filesystem) to an outcome recording the final filesystem,
the sequence of `set_result` calls, the sequence of `add_message` calls,
and the sequence of attempted `shutil.copy2` source paths.
-/

namespace Convert2Rhel

/-- An OS-level error as raised by Python file operations: `errno`,
`strerror` and the offending path (as in `OSError`). -/
structure OSError where
  errno : Int
  strerror : String
  filename : String
deriving DecidableEq, Repr

/-- Python's `str(err)` rendering of an `OSError` that carries a filename,
e.g. `[Errno 39] Directory not empty: '/boot/efi/EFI/centos'`. -/
def OSError.pyStr (e : OSError) : String :=
  "[Errno " ++ toString e.errno ++ "] " ++ e.strerror ++ ": '" ++ e.filename ++ "'"

/-- A filesystem entry: a regular file with its content, or a directory. -/
inductive FsEntry where
  | file (content : String)
  | dir
deriving DecidableEq, Repr

/-- The host filesystem: an association list from absolute path to entry.
A later binding is shadowed by an earlier one (lookup finds the first). -/
abbrev FileSystem := List (String × FsEntry)

/-- First binding of path `p` in the filesystem, if any. -/
def fsLookup : FileSystem → String → Option FsEntry
  | [], _ => none
  | (q, e) :: rest, p => if q = p then some e else fsLookup rest p

/-- Embedding of `os.path.exists`. -/
def osPathExists (fs : FileSystem) (p : String) : Bool :=
  (fsLookup fs p).isSome

/-- Embedding of `os.path.join` for one component (the directory constants
are modelled without a trailing slash, so join inserts exactly one). -/
def osPathJoin (d f : String) : String := d ++ "/" ++ f

/-- Embedding of `os.path.basename`: the part of the path after the last
slash (computed structurally over the character list). -/
def osPathBasename (p : String) : String :=
  String.mk (((p.data.reverse).takeWhile (fun c => c ≠ '/')).reverse)

/-- Remove every binding of path `k` from the filesystem. -/
def removeKey : FileSystem → String → FileSystem
  | [], _ => []
  | (q, e) :: rest, k => if q = k then removeKey rest k else (q, e) :: removeKey rest k

/-- The `ENOENT` error Python raises for a missing path. -/
def enoentError (p : String) : OSError :=
  { errno := 2, strerror := "No such file or directory", filename := p }

/-- Embedding of `shutil.copy2 src dst`: copies the file content (metadata
is not modelled beyond content) to `dst`, shadowing any old binding;
raises `ENOENT` when the source is missing and `EISDIR` when it is a
directory. -/
def shutilCopy2 (fs : FileSystem) (src dst : String) : Except OSError FileSystem :=
  match fsLookup fs src with
  | some (FsEntry.file c) => Except.ok ((dst, FsEntry.file c) :: fs)
  | some FsEntry.dir => Except.error { errno := 21, strerror := "Is a directory", filename := src }
  | none => Except.error (enoentError src)

/-- Whether some binding lies strictly under directory `d`. -/
def hasEntryUnder (fs : FileSystem) (d : String) : Bool :=
  fs.any (fun e => (d ++ "/").data.isPrefixOf e.1.data)

/-- Embedding of `os.rmdir`: removes directory `d` only when it is empty;
raises `ENOTEMPTY` when an entry lies under it, `ENOTDIR` when `d` is a
regular file, and `ENOENT` when `d` does not exist. -/
def osRmdir (fs : FileSystem) (d : String) : Except OSError FileSystem :=
  match fsLookup fs d with
  | some FsEntry.dir =>
      if hasEntryUnder fs d then
        Except.error { errno := 39, strerror := "Directory not empty", filename := d }
      else
        Except.ok (removeKey fs d)
  | some (FsEntry.file _) => Except.error { errno := 20, strerror := "Not a directory", filename := d }
  | none => Except.error (enoentError d)

/-- A structured record passed to `set_result` or `add_message`. -/
structure ActionResult where
  level : String
  id : String
  title : String
  description : String
  diagnosis : Option String
  remediations : Option String
deriving DecidableEq, Repr

/-- The observable outcome of one `run()` invocation: the final filesystem,
the `set_result` calls in order, the `add_message` calls in order, and the
source paths for which a `shutil.copy2` call was attempted, in order. -/
structure RunOutcome where
  fs : FileSystem
  results : List ActionResult
  messages : List ActionResult
  attempts : List String
deriving DecidableEq, Repr

/-- Modelled from the spec: the source distribution's canonical EFI
directory, `convert2rhel.grub.CENTOS_EFIDIR_CANONICAL_PATH` (the `grub`
module is not part of the sources under review). -/
def CENTOS_EFIDIR_CANONICAL_PATH : String := "/boot/efi/EFI/centos"

/-- Modelled from the spec: the target distribution's canonical EFI
directory, `convert2rhel.grub.RHEL_EFIDIR_CANONICAL_PATH`. -/
def RHEL_EFIDIR_CANONICAL_PATH : String := "/boot/efi/EFI/redhat"

/-- Modelled from the spec: the fixed, ordered candidate EFI binary
filenames, `convert2rhel.grub.DEFAULT_INSTALLED_EFIBIN_FILENAMES`
(order encodes preference, `shimx64.efi` before `grubx64.efi`). -/
def DEFAULT_INSTALLED_EFIBIN_FILENAMES : List String := ["shimx64.efi", "grubx64.efi"]

/-- The loop of `NewDefaultEfiBin.run`: scan the candidate filenames in
order under the RHEL EFI directory; return the first existing path (if
any) and the paths found missing before it. -/
def newDefaultEfiBinScan (fs : FileSystem) : List String → Option String × List String
  | [] => (none, [])
  | filename :: rest =>
    let efi_path := osPathJoin RHEL_EFIDIR_CANONICAL_PATH filename
    if osPathExists fs efi_path then
      (some efi_path, [])
    else
      let s := newDefaultEfiBinScan fs rest
      (s.1, efi_path :: s.2)

/-- The `set_result` record of `NewDefaultEfiBin.run` when no candidate
UEFI binary exists, with its diagnosis listing the missing paths. -/
def notFoundRhelUefiBinariesResult (missing_binaries : List String) : ActionResult :=
  { level := "ERROR",
    id := "NOT_FOUND_RHEL_UEFI_BINARIES",
    title := "RHEL UEFI binaries not found",
    description := "None of the expected RHEL UEFI binaries exist.",
    diagnosis := some ("Bootloader couldn't be migrated due to missing RHEL EFI binaries: "
      ++ String.intercalate ", " missing_binaries ++ " ."),
    remediations := some ("Verify the bootloader configuration as follows and reboot the system."
      ++ " Ensure that `grubenv` and `grub.cfg` files"
      ++ " are present in the " ++ RHEL_EFIDIR_CANONICAL_PATH ++ " directory. Verify that `efibootmgr -v`"
      ++ " shows a bootloader entry for Red Hat Enterprise Linux"
      ++ " that points to to '\\EFI\\redhat\\shimx64.efi'.") }

/-- Embedding of `NewDefaultEfiBin.run` (id `NEW_DEFAULT_EFI_BIN`).
`is_efi` is the value of the `grub.is_efi()` collaborator and
`candidates` the value of `grub.DEFAULT_INSTALLED_EFIBIN_FILENAMES`. -/
def NewDefaultEfiBin.run (is_efi : Bool) (candidates : List String) (fs : FileSystem) : RunOutcome :=
  if !is_efi then
    { fs := fs, results := [], messages := [], attempts := [] }
  else
    let s := newDefaultEfiBinScan fs candidates
    match s.1 with
    | some _ => { fs := fs, results := [], messages := [], attempts := [] }
    | none =>
      { fs := fs, results := [notFoundRhelUefiBinariesResult s.2], messages := [], attempts := [] }

/-- The `set_result` record of `EfibootmgrUtilityInstalled.run` when the
`efibootmgr` utility is absent. -/
def notInstalledEfibootmgrResult : ActionResult :=
  { level := "ERROR",
    id := "NOT_INSTALLED_EFIBOOTMGR_UTILITY",
    title := "UEFI boot manager utility not found",
    description := "Couldn't find the UEFI boot manager which is required for us to install and verify a RHEL boot entry.",
    diagnosis := none,
    remediations := some "Install the efibootmgr utility using the following command:\n\n 1. yum install efibootmgr" }

/-- Embedding of `EfibootmgrUtilityInstalled.run` (id
`EFIBOOTMGR_UTILITY_INSTALLED`). -/
def EfibootmgrUtilityInstalled.run (fs : FileSystem) : RunOutcome :=
  if !osPathExists fs "/usr/sbin/efibootmgr" then
    { fs := fs, results := [notInstalledEfibootmgrResult], messages := [], attempts := [] }
  else
    { fs := fs, results := [], messages := [], attempts := [] }

/-- The three candidate GRUB configuration filenames of
`CopyGrubFiles.run`, in source order. -/
def grubConfigFilenames : List String := ["grubenv", "grub.cfg", "user.cfg"]

/-- The `src_files` list of `CopyGrubFiles.run`: the candidate filenames
joined under the CentOS EFI directory. -/
def copySrcFiles : List String :=
  grubConfigFilenames.map (fun filename => osPathJoin CENTOS_EFIDIR_CANONICAL_PATH filename)

/-- The destination path of one candidate source file, as computed in the
copy loop: the basename of the source joined under the RHEL EFI directory. -/
def copyDst (src_file : String) : String :=
  osPathJoin RHEL_EFIDIR_CANONICAL_PATH (osPathBasename src_file)

/-- The `set_result` record of `CopyGrubFiles.run` for a failed copy,
carrying the OS error code and message. -/
def grubFilesNotCopiedResult (err : OSError) : ActionResult :=
  { level := "ERROR",
    id := "GRUB_FILES_NOT_COPIED_TO_BOOT_DIRECTORY",
    title := "GRUB files have not been copied to boot directory",
    description := "I/O error(" ++ toString err.errno ++ "): " ++ err.strerror
      ++ " Some GRUB files have not been copied to /boot/efi/EFI/redhat.",
    diagnosis := none,
    remediations := none }

/-- The `set_result` record of `CopyGrubFiles.run` when none of the
candidate source files exists, listing the missing required files. -/
def unableToFindResult (missing_files : List String) : ActionResult :=
  { level := "ERROR",
    id := "UNABLE_TO_FIND_REQUIRED_FILE_FOR_GRUB_CONFIG",
    title := "Couldn't find system GRUB config",
    description := "Couldn't find one of the GRUB config files in the current system which is required for configuring UEFI for RHEL: "
      ++ String.intercalate ", " missing_files,
    diagnosis := none,
    remediations := none }

/-- The copy loop of `CopyGrubFiles.run`: for each source file in order,
skip it when its destination already exists; otherwise attempt
`shutil.copy2` and, on an `OSError`, record the error result and continue
with the remaining files (the loop does not stop). -/
def copyGrubLoop (fs : FileSystem) : List String → RunOutcome
  | [] => { fs := fs, results := [], messages := [], attempts := [] }
  | src_file :: rest =>
    let dst_file := copyDst src_file
    if osPathExists fs dst_file then
      copyGrubLoop fs rest
    else
      match shutilCopy2 fs src_file dst_file with
      | Except.ok fs2 =>
        let o := copyGrubLoop fs2 rest
        { fs := o.fs, results := o.results, messages := o.messages,
          attempts := src_file :: o.attempts }
      | Except.error err =>
        let o := copyGrubLoop fs rest
        { fs := o.fs, results := grubFilesNotCopiedResult err :: o.results,
          messages := o.messages, attempts := src_file :: o.attempts }

/-- Embedding of `CopyGrubFiles.run` (id `COPY_GRUB_FILES`).  `system_id`
is the value of `systeminfo.system_info.id`. -/
def CopyGrubFiles.run (system_id : String) (fs : FileSystem) : RunOutcome :=
  if system_id ≠ "centos" then
    { fs := fs, results := [], messages := [], attempts := [] }
  else
    let src_files := copySrcFiles
    let required := src_files.take 2
    if !(src_files.any (fun filename => osPathExists fs filename)) then
      let missing_files := src_files.filter
        (fun filename => required.contains filename && !(osPathExists fs filename))
      { fs := fs, results := [unableToFindResult missing_files], messages := [], attempts := [] }
    else
      copyGrubLoop fs src_files

/-- The warning text of `RemoveEfiCentos.run`, embedding the underlying
error's text. -/
def removeEfiCentosWarning (err : OSError) : String :=
  "Failed to remove the " ++ CENTOS_EFIDIR_CANONICAL_PATH
    ++ " directory as files still exist. During conversion we make sure to copy over files needed to their RHEL counterpart."
    ++ " However, some files we didn't expect likely exist in the directory that needs human oversight."
    ++ " Make sure that the files within the directory is taken care of and proceed with deleting the directory manually after conversion."
    ++ " We received error: '" ++ OSError.pyStr err ++ "'."

/-- The `add_message` record of `RemoveEfiCentos.run` when removal of the
CentOS EFI directory fails. -/
def notRemovedCentosDirMessage (err : OSError) : ActionResult :=
  { level := "WARNING",
    id := "NOT_REMOVED_CENTOS_UEFI_DIRECTORY",
    title := "CentOS UEFI directory couldn't be removed",
    description := removeEfiCentosWarning err,
    diagnosis := none,
    remediations := none }

/-- Embedding of `RemoveEfiCentos.run` (id `REMOVE_EFI_CENTOS`). -/
def RemoveEfiCentos.run (system_id : String) (fs : FileSystem) : RunOutcome :=
  if system_id ≠ "centos" then
    { fs := fs, results := [], messages := [], attempts := [] }
  else
    match osRmdir fs CENTOS_EFIDIR_CANONICAL_PATH with
    | Except.ok fs2 => { fs := fs2, results := [], messages := [], attempts := [] }
    | Except.error err =>
      { fs := fs, results := [], messages := [notRemovedCentosDirMessage err], attempts := [] }

/-- The typed error of the bootloader collaborator
(`convert2rhel.grub.BootloaderError`), carrying a message. -/
structure BootloaderError where
  message : String
deriving DecidableEq, Repr

/-- The `set_result` record of `ReplaceEfiBootEntry.run` when the
delegated replacement procedure raises a bootloader error. -/
def failedToReplaceResult (e : BootloaderError) : ActionResult :=
  { level := "ERROR",
    id := "FAILED_TO_REPLACE_UEFI_BOOT_ENTRY",
    title := "Failed to replace UEFI boot entry to RHEL",
    description := "As the current UEFI bootloader entry could be invalid or missing we need to ensure that a RHEL UEFI entry exists. The UEFI boot entry could not be replaced due to the following error: '"
      ++ e.message ++ "'",
    diagnosis := none,
    remediations := none }

/-- Embedding of `ReplaceEfiBootEntry.run` (id `REPLACE_EFI_BOOT_ENTRY`).
`replace_outcome` is the outcome of the delegated
`grub.replace_efi_boot_entry()` collaborator: `none` on success, or the
raised `BootloaderError`. -/
def ReplaceEfiBootEntry.run (replace_outcome : Option BootloaderError) (fs : FileSystem) : RunOutcome :=
  match replace_outcome with
  | none => { fs := fs, results := [], messages := [], attempts := [] }
  | some e => { fs := fs, results := [failedToReplaceResult e], messages := [], attempts := [] }

/-- Declared action id of `NewDefaultEfiBin`. -/
def NewDefaultEfiBin.id : String := "NEW_DEFAULT_EFI_BIN"

/-- Dependencies of `NewDefaultEfiBin`: the class body declares none, so
the empty base-class default applies. -/
def NewDefaultEfiBin.dependencies : List String := []

/-- Declared action id of `EfibootmgrUtilityInstalled`. -/
def EfibootmgrUtilityInstalled.id : String := "EFIBOOTMGR_UTILITY_INSTALLED"

/-- Declared dependencies of `EfibootmgrUtilityInstalled`. -/
def EfibootmgrUtilityInstalled.dependencies : List String := ["NEW_DEFAULT_EFI_BIN"]

/-- Declared action id of `CopyGrubFiles`. -/
def CopyGrubFiles.id : String := "COPY_GRUB_FILES"

/-- Dependencies of `CopyGrubFiles`: the class body declares no
`dependencies` attribute at all, so the empty base-class default applies. -/
def CopyGrubFiles.dependencies : List String := []

/-- Declared action id of `RemoveEfiCentos`. -/
def RemoveEfiCentos.id : String := "REMOVE_EFI_CENTOS"

/-- Declared dependencies of `RemoveEfiCentos`. -/
def RemoveEfiCentos.dependencies : List String := ["COPY_GRUB_FILES"]

/-- Declared action id of `ReplaceEfiBootEntry`. -/
def ReplaceEfiBootEntry.id : String := "REPLACE_EFI_BOOT_ENTRY"

/-- Declared dependencies of `ReplaceEfiBootEntry`. -/
def ReplaceEfiBootEntry.dependencies : List String := ["REMOVE_EFI_CENTOS"]


lemma osPathExists_cons_of (k : String) (v : FsEntry) (fs : FileSystem) (p : String)
    (h : osPathExists fs p = true) : osPathExists ((k, v) :: fs) p = true := by
  unfold osPathExists fsLookup
  by_cases hkp : k = p
  · simp [hkp]
  · simpa [hkp] using h

lemma fsLookup_cons_ne (k : String) (v : FsEntry) (fs : FileSystem) (p : String)
    (h : k ≠ p) : fsLookup ((k, v) :: fs) p = fsLookup fs p := by
  simp only [fsLookup]
  rw [if_neg h]

lemma fsLookup_removeKey (fs : FileSystem) (k p : String) (h : p ≠ k) :
    fsLookup (removeKey fs k) p = fsLookup fs p := by
  induction fs with
  | nil => rfl
  | cons hd tl ih =>
    obtain ⟨q, e⟩ := hd
    simp only [removeKey]
    by_cases hqk : q = k
    · rw [if_pos hqk, ih]
      have hqp : q ≠ p := fun hq => h (hq ▸ hqk)
      rw [fsLookup_cons_ne q e tl p hqp]
    · rw [if_neg hqk]
      simp only [fsLookup]
      rw [ih]

lemma copyGrubLoop_fs_preserve (l : List String) :
    ∀ (fs : FileSystem) (p : String), osPathExists fs p = true →
      fsLookup (copyGrubLoop fs l).fs p = fsLookup fs p := by
  induction l with
  | nil => intro fs p _; rfl
  | cons src rest ih =>
    intro fs p hp
    by_cases h1 : osPathExists fs (copyDst src) = true
    · simp only [copyGrubLoop, h1, if_true]
      exact ih fs p hp
    · have h1f : osPathExists fs (copyDst src) = false := by
        simpa using h1
      have hne : copyDst src ≠ p := by
        intro he
        rw [he] at h1f
        rw [hp] at h1f
        exact Bool.true_eq_false.mp h1f
      cases hsrc : fsLookup fs src with
      | none =>
        simp only [copyGrubLoop, h1f, Bool.false_eq_true, if_false, shutilCopy2, hsrc]
        exact ih fs p hp
      | some e =>
        cases e with
        | dir =>
          simp only [copyGrubLoop, h1f, Bool.false_eq_true, if_false, shutilCopy2, hsrc]
          exact ih fs p hp
        | file c =>
          simp only [copyGrubLoop, h1f, Bool.false_eq_true, if_false, shutilCopy2, hsrc]
          have hp2 : osPathExists ((copyDst src, FsEntry.file c) :: fs) p = true :=
            osPathExists_cons_of _ _ _ _ hp
          rw [ih _ p hp2]
          exact fsLookup_cons_ne _ _ _ _ hne

lemma copyGrubLoop_attempts_skip (l : List String) :
    ∀ (fs : FileSystem) (src : String), osPathExists fs (copyDst src) = true →
      src ∉ (copyGrubLoop fs l).attempts := by
  induction l with
  | nil => intro fs src _; simp [copyGrubLoop]
  | cons a rest ih =>
    intro fs src hsrc
    by_cases h1 : osPathExists fs (copyDst a) = true
    · simp only [copyGrubLoop, h1, if_true]
      exact ih fs src hsrc
    · have h1f : osPathExists fs (copyDst a) = false := by
        simpa using h1
      have hne : a ≠ src := by
        intro he
        rw [he, hsrc] at h1f
        exact Bool.true_eq_false.mp h1f
      cases ha : fsLookup fs a with
      | none =>
        simp only [copyGrubLoop, h1f, Bool.false_eq_true, if_false, shutilCopy2, ha,
          List.mem_cons, not_or]
        exact ⟨fun he => hne he.symm, ih fs src hsrc⟩
      | some e =>
        cases e with
        | dir =>
          simp only [copyGrubLoop, h1f, Bool.false_eq_true, if_false, shutilCopy2, ha,
            List.mem_cons, not_or]
          exact ⟨fun he => hne he.symm, ih fs src hsrc⟩
        | file c =>
          simp only [copyGrubLoop, h1f, Bool.false_eq_true, if_false, shutilCopy2, ha,
            List.mem_cons, not_or]
          refine ⟨fun he => hne he.symm, ?_⟩
          exact ih _ src (osPathExists_cons_of _ _ _ _ hsrc)

lemma copyGrubLoop_results_shape (l : List String) :
    ∀ (fs : FileSystem) (r : ActionResult), r ∈ (copyGrubLoop fs l).results →
      r.level = "ERROR" ∧ r.id = "GRUB_FILES_NOT_COPIED_TO_BOOT_DIRECTORY" := by
  induction l with
  | nil => intro fs r hr; simp [copyGrubLoop] at hr
  | cons a rest ih =>
    intro fs r hr
    by_cases h1 : osPathExists fs (copyDst a) = true
    · simp only [copyGrubLoop, h1, if_true] at hr
      exact ih fs r hr
    · have h1f : osPathExists fs (copyDst a) = false := by
        simpa using h1
      cases ha : fsLookup fs a with
      | none =>
        simp only [copyGrubLoop, h1f, Bool.false_eq_true, if_false, shutilCopy2, ha,
          List.mem_cons] at hr
        rcases hr with hr | hr
        · subst hr; exact ⟨rfl, rfl⟩
        · exact ih fs r hr
      | some e =>
        cases e with
        | dir =>
          simp only [copyGrubLoop, h1f, Bool.false_eq_true, if_false, shutilCopy2, ha,
            List.mem_cons] at hr
          rcases hr with hr | hr
          · subst hr; exact ⟨rfl, rfl⟩
          · exact ih fs r hr
        | file c =>
          simp only [copyGrubLoop, h1f, Bool.false_eq_true, if_false, shutilCopy2, ha] at hr
          exact ih _ r hr

lemma copyGrubLoop_results_length (l : List String) :
    ∀ fs : FileSystem, (copyGrubLoop fs l).results.length ≤ l.length := by
  induction l with
  | nil => intro fs; simp [copyGrubLoop]
  | cons a rest ih =>
    intro fs
    by_cases h1 : osPathExists fs (copyDst a) = true
    · simp only [copyGrubLoop, h1, if_true]
      exact Nat.le_succ_of_le (ih fs)
    · have h1f : osPathExists fs (copyDst a) = false := by
        simpa using h1
      cases ha : fsLookup fs a with
      | none =>
        simp only [copyGrubLoop, h1f, Bool.false_eq_true, if_false, shutilCopy2, ha,
          List.length_cons]
        exact Nat.succ_le_succ (ih fs)
      | some e =>
        cases e with
        | dir =>
          simp only [copyGrubLoop, h1f, Bool.false_eq_true, if_false, shutilCopy2, ha,
            List.length_cons]
          exact Nat.succ_le_succ (ih fs)
        | file c =>
          simp only [copyGrubLoop, h1f, Bool.false_eq_true, if_false, shutilCopy2, ha]
          exact Nat.le_succ_of_le (ih _)



lemma copyGrubRun_preserve (system_id : String) (fs : FileSystem) (p : String)
    (h : osPathExists fs p = true) :
    fsLookup (CopyGrubFiles.run system_id fs).fs p = fsLookup fs p := by
  by_cases hid : system_id = "centos"
  · by_cases hany : copySrcFiles.any (fun filename => osPathExists fs filename) = true
    · have hrun : CopyGrubFiles.run system_id fs = copyGrubLoop fs copySrcFiles := by
        simp [CopyGrubFiles.run, hid, hany]
      rw [hrun]
      exact copyGrubLoop_fs_preserve _ _ _ h
    · have hany2 : copySrcFiles.any (fun filename => osPathExists fs filename) = false := by
        simpa using hany
      simp [CopyGrubFiles.run, hid, hany2]
  · simp [CopyGrubFiles.run, hid]

lemma copyGrubRun_no_attempt (system_id : String) (fs : FileSystem) (src : String)
    (h : osPathExists fs (copyDst src) = true) :
    src ∉ (CopyGrubFiles.run system_id fs).attempts := by
  by_cases hid : system_id = "centos"
  · by_cases hany : copySrcFiles.any (fun filename => osPathExists fs filename) = true
    · have hrun : CopyGrubFiles.run system_id fs = copyGrubLoop fs copySrcFiles := by
        simp [CopyGrubFiles.run, hid, hany]
      rw [hrun]
      exact copyGrubLoop_attempts_skip _ _ _ h
    · have hany2 : copySrcFiles.any (fun filename => osPathExists fs filename) = false := by
        simpa using hany
      simp [CopyGrubFiles.run, hid, hany2]
  · simp [CopyGrubFiles.run, hid]

lemma newDefaultEfiBinScan_fst (fs : FileSystem) (l : List String) :
    (newDefaultEfiBinScan fs l).1
      = (l.map (fun filename => osPathJoin RHEL_EFIDIR_CANONICAL_PATH filename)).find?
          (fun p => osPathExists fs p) := by
  induction l with
  | nil => rfl
  | cons a rest ih =>
    by_cases h : osPathExists fs (osPathJoin RHEL_EFIDIR_CANONICAL_PATH a) = true
    · simp [newDefaultEfiBinScan, h, List.find?_cons_of_pos]
    · have hf : osPathExists fs (osPathJoin RHEL_EFIDIR_CANONICAL_PATH a) = false := by
        simpa using h
      simp [newDefaultEfiBinScan, hf, List.find?_cons_of_neg, ih]

lemma newDefaultEfiBinScan_snd (fs : FileSystem) (l : List String)
    (hall : ∀ filename ∈ l, osPathExists fs (osPathJoin RHEL_EFIDIR_CANONICAL_PATH filename) = false) :
    (newDefaultEfiBinScan fs l).2
      = l.map (fun filename => osPathJoin RHEL_EFIDIR_CANONICAL_PATH filename) := by
  induction l with
  | nil => rfl
  | cons a rest ih =>
    have h1 : osPathExists fs (osPathJoin RHEL_EFIDIR_CANONICAL_PATH a) = false :=
      hall a (List.mem_cons_self a rest)
    have ih2 := ih (fun f hf => hall f (List.mem_cons_of_mem a hf))
    simp [newDefaultEfiBinScan, h1, ih2]

lemma osRmdir_ok_shape (fs : FileSystem) (d : String) (fs2 : FileSystem)
    (h : osRmdir fs d = Except.ok fs2) :
    fsLookup fs d = some FsEntry.dir ∧ fs2 = removeKey fs d := by
  unfold osRmdir at h
  cases hd : fsLookup fs d with
  | none => rw [hd] at h; simp at h
  | some e =>
    cases e with
    | file c => rw [hd] at h; simp at h
    | dir =>
      rw [hd] at h
      by_cases hu : hasEntryUnder fs d = true
      · simp [hu] at h
      · have hu2 : hasEntryUnder fs d = false := by simpa using hu
        simp [hu2] at h
        exact ⟨rfl, h.symm⟩

lemma osRmdir_error_of_under (fs : FileSystem) (d : String)
    (hu : hasEntryUnder fs d = true) :
    ∃ err : OSError, osRmdir fs d = Except.error err := by
  unfold osRmdir
  cases hd : fsLookup fs d with
  | none => exact ⟨_, rfl⟩
  | some e =>
    cases e with
    | file c => exact ⟨_, rfl⟩
    | dir => simp [hu]


/-- A filesystem where, of the three candidate GRUB source files, only
`grubenv` exists at the source, and the destination directory already
holds `grub.cfg` and `user.cfg`. -/
def fsOnlyGrubenvAtSource : FileSystem :=
  [("/boot/efi/EFI/centos/grubenv", FsEntry.file "env"),
   ("/boot/efi/EFI/redhat/grub.cfg", FsEntry.file "dst-cfg"),
   ("/boot/efi/EFI/redhat/user.cfg", FsEntry.file "dst-user")]

/-- C1 counterexample: on a centos system where only `grubenv` exists of
the three candidate source files, `CopyGrubFiles.run` records no result
at all — in particular no Error with id
`UNABLE_TO_FIND_REQUIRED_FILE_FOR_GRUB_CONFIG` — because the error branch
fires only when none of the three candidates exists. -/
theorem copy_grub_files_only_grubenv_no_error_cx :
    osPathExists fsOnlyGrubenvAtSource (osPathJoin CENTOS_EFIDIR_CANONICAL_PATH "grubenv") = true ∧
    osPathExists fsOnlyGrubenvAtSource (osPathJoin CENTOS_EFIDIR_CANONICAL_PATH "grub.cfg") = false ∧
    osPathExists fsOnlyGrubenvAtSource (osPathJoin CENTOS_EFIDIR_CANONICAL_PATH "user.cfg") = false ∧
    (CopyGrubFiles.run "centos" fsOnlyGrubenvAtSource).results = [] := by
  refine ⟨rfl, rfl, rfl, ?_⟩
  decide

/-- C1 (amended): whenever the source `grubenv` exists on a centos system,
`CopyGrubFiles.run` records no `UNABLE_TO_FIND_REQUIRED_FILE_FOR_GRUB_CONFIG`
Error: the all-missing check is skipped and the action proceeds to the
copy loop, whose only possible error id is
`GRUB_FILES_NOT_COPIED_TO_BOOT_DIRECTORY`. -/
theorem copy_grub_files_no_missing_error_when_grubenv_exists (fs : FileSystem)
    (h : osPathExists fs (osPathJoin CENTOS_EFIDIR_CANONICAL_PATH "grubenv") = true) :
    ((CopyGrubFiles.run "centos" fs).results.all
      (fun r => r.id != "UNABLE_TO_FIND_REQUIRED_FILE_FOR_GRUB_CONFIG")) = true := by
  have hany : copySrcFiles.any (fun filename => osPathExists fs filename) = true := by
    simp only [copySrcFiles, grubConfigFilenames, List.map_cons, List.any_cons, h,
      Bool.true_or]
  have hrun : CopyGrubFiles.run "centos" fs = copyGrubLoop fs copySrcFiles := by
    simp [CopyGrubFiles.run, hany]
  rw [hrun, List.all_eq_true]
  intro r hr
  have hid := (copyGrubLoop_results_shape copySrcFiles fs r hr).2
  simp [hid]

/-- C1 witness: the amended theorem applied to a concrete filesystem where
only the source `grubenv` exists. -/
theorem copy_grub_files_no_missing_error_witness :
    ((CopyGrubFiles.run "centos" fsOnlyGrubenvAtSource).results.all
      (fun r => r.id != "UNABLE_TO_FIND_REQUIRED_FILE_FOR_GRUB_CONFIG")) = true :=
  copy_grub_files_no_missing_error_when_grubenv_exists fsOnlyGrubenvAtSource rfl


/-- A filesystem where only the source `grubenv` exists: the copies of
`grub.cfg` and `user.cfg` both raise `ENOENT`. -/
def fsGrubenvOnly : FileSystem :=
  [("/boot/efi/EFI/centos/grubenv", FsEntry.file "env")]

/-- C2 counterexample: on a centos system where only the source `grubenv`
exists, the copy of `grub.cfg` raises an I/O error, yet the run records
two Errors (not exactly one) and still attempts the remaining candidate
`user.cfg` after that first failure. -/
theorem copy_grub_files_two_failures_cx :
    (CopyGrubFiles.run "centos" fsGrubenvOnly).results.length = 2 ∧
    (CopyGrubFiles.run "centos" fsGrubenvOnly).attempts
      = ["/boot/efi/EFI/centos/grubenv", "/boot/efi/EFI/centos/grub.cfg",
         "/boot/efi/EFI/centos/user.cfg"] := by
  constructor
  · decide
  · decide

/-- C2 (amended): a candidate copy that raises an I/O error records an
Error with id `GRUB_FILES_NOT_COPIED_TO_BOOT_DIRECTORY` carrying the OS
error code and message, but does not abort the action: the loop goes on
to process the remaining candidate files on the unchanged filesystem, and
each further failing copy records an additional Error. -/
theorem copy_grub_files_failure_continues (fs : FileSystem) (src_file : String)
    (rest : List String) (err : OSError)
    (hdst : osPathExists fs (copyDst src_file) = false)
    (hcopy : shutilCopy2 fs src_file (copyDst src_file) = Except.error err) :
    (copyGrubLoop fs (src_file :: rest)).results
      = grubFilesNotCopiedResult err :: (copyGrubLoop fs rest).results ∧
    (copyGrubLoop fs (src_file :: rest)).attempts
      = src_file :: (copyGrubLoop fs rest).attempts ∧
    (copyGrubLoop fs (src_file :: rest)).fs = (copyGrubLoop fs rest).fs ∧
    (grubFilesNotCopiedResult err).level = "ERROR" ∧
    (grubFilesNotCopiedResult err).id = "GRUB_FILES_NOT_COPIED_TO_BOOT_DIRECTORY" := by
  refine ⟨?_, ?_, ?_, rfl, rfl⟩ <;> simp [copyGrubLoop, hdst, hcopy]

/-- C2 witness: the amended theorem applied to the empty filesystem with
the failing copy of `grub.cfg` and the remaining candidate `user.cfg`. -/
theorem copy_grub_files_failure_continues_witness :
    (copyGrubLoop [] ["/boot/efi/EFI/centos/grub.cfg", "/boot/efi/EFI/centos/user.cfg"]).results
      = grubFilesNotCopiedResult (enoentError "/boot/efi/EFI/centos/grub.cfg")
          :: (copyGrubLoop [] ["/boot/efi/EFI/centos/user.cfg"]).results ∧
    (copyGrubLoop [] ["/boot/efi/EFI/centos/grub.cfg", "/boot/efi/EFI/centos/user.cfg"]).attempts
      = "/boot/efi/EFI/centos/grub.cfg"
          :: (copyGrubLoop [] ["/boot/efi/EFI/centos/user.cfg"]).attempts ∧
    (copyGrubLoop [] ["/boot/efi/EFI/centos/grub.cfg", "/boot/efi/EFI/centos/user.cfg"]).fs
      = (copyGrubLoop [] ["/boot/efi/EFI/centos/user.cfg"]).fs ∧
    (grubFilesNotCopiedResult (enoentError "/boot/efi/EFI/centos/grub.cfg")).level = "ERROR" ∧
    (grubFilesNotCopiedResult (enoentError "/boot/efi/EFI/centos/grub.cfg")).id
      = "GRUB_FILES_NOT_COPIED_TO_BOOT_DIRECTORY" :=
  copy_grub_files_failure_continues [] "/boot/efi/EFI/centos/grub.cfg"
    ["/boot/efi/EFI/centos/user.cfg"] (enoentError "/boot/efi/EFI/centos/grub.cfg")
    (by decide) rfl

/-- C3 counterexample: `CopyGrubFiles` declares no dependencies at all; in
particular it does not declare a dependency on
`EFIBOOTMGR_UTILITY_INSTALLED`. -/
theorem copy_grub_files_declares_no_dependency_cx :
    CopyGrubFiles.dependencies = [] ∧
    "EFIBOOTMGR_UTILITY_INSTALLED" ∉ CopyGrubFiles.dependencies := by
  constructor
  · rfl
  · decide

/-- C3 (amended): of the five bootloader actions, every one after the
first except `CopyGrubFiles` declares a dependency on the immediately
preceding action in pipeline order (`EfibootmgrUtilityInstalled` on
`NEW_DEFAULT_EFI_BIN`, `RemoveEfiCentos` on `COPY_GRUB_FILES`,
`ReplaceEfiBootEntry` on `REMOVE_EFI_CENTOS`); `CopyGrubFiles` declares
no dependencies. -/
theorem bootloader_actions_dependency_chain :
    NewDefaultEfiBin.dependencies = [] ∧
    EfibootmgrUtilityInstalled.dependencies = [NewDefaultEfiBin.id] ∧
    CopyGrubFiles.dependencies = [] ∧
    RemoveEfiCentos.dependencies = [CopyGrubFiles.id] ∧
    ReplaceEfiBootEntry.dependencies = [RemoveEfiCentos.id] ∧
    EfibootmgrUtilityInstalled.dependencies ≠ [EfibootmgrUtilityInstalled.id] := by
  refine ⟨rfl, rfl, rfl, rfl, rfl, ?_⟩
  decide

/-- A filesystem where the destination `grubenv` already exists (so that
candidate is skipped) and the copies of `grub.cfg` and `user.cfg` both
raise `ENOENT`. -/
def fsGrubenvSkipDst : FileSystem :=
  [("/boot/efi/EFI/centos/grubenv", FsEntry.file "env"),
   ("/boot/efi/EFI/redhat/grubenv", FsEntry.file "old")]

/-- C4 counterexample: a single run of `CopyGrubFiles.run` calls
`set_result` with level ERROR twice when two candidate copies fail. -/
theorem copy_grub_files_two_error_results_cx :
    ((CopyGrubFiles.run "centos" fsGrubenvSkipDst).results.filter
      (fun r => r.level == "ERROR")).length = 2 := by
  decide

/-- C4 (amended): every bootloader action except `CopyGrubFiles` records
at most one Error result per run (`RemoveEfiCentos` records none);
`CopyGrubFiles` records one result per failing candidate copy, bounded
only by the number of candidate files. -/
theorem actions_error_result_count_bounds :
    (∀ (is_efi : Bool) (candidates : List String) (fs : FileSystem),
        (NewDefaultEfiBin.run is_efi candidates fs).results.length ≤ 1) ∧
    (∀ fs : FileSystem, (EfibootmgrUtilityInstalled.run fs).results.length ≤ 1) ∧
    (∀ (system_id : String) (fs : FileSystem),
        (RemoveEfiCentos.run system_id fs).results = []) ∧
    (∀ (replace_outcome : Option BootloaderError) (fs : FileSystem),
        (ReplaceEfiBootEntry.run replace_outcome fs).results.length ≤ 1) ∧
    (∀ (system_id : String) (fs : FileSystem),
        (CopyGrubFiles.run system_id fs).results.length ≤ copySrcFiles.length) := by
  refine ⟨?_, ?_, ?_, ?_, ?_⟩
  · intro is_efi candidates fs
    cases is_efi with
    | false => simp [NewDefaultEfiBin.run]
    | true =>
      cases hs : (newDefaultEfiBinScan fs candidates).1 with
      | none => simp [NewDefaultEfiBin.run, hs]
      | some p => simp [NewDefaultEfiBin.run, hs]
  · intro fs
    by_cases h : osPathExists fs "/usr/sbin/efibootmgr" = true
    · simp [EfibootmgrUtilityInstalled.run, h]
    · have h2 : osPathExists fs "/usr/sbin/efibootmgr" = false := by simpa using h
      simp [EfibootmgrUtilityInstalled.run, h2]
  · intro system_id fs
    by_cases hid : system_id = "centos"
    · cases hrm : osRmdir fs CENTOS_EFIDIR_CANONICAL_PATH with
      | ok fs2 => simp [RemoveEfiCentos.run, hid, hrm]
      | error err => simp [RemoveEfiCentos.run, hid, hrm]
    · simp [RemoveEfiCentos.run, hid]
  · intro replace_outcome fs
    cases replace_outcome with
    | none => simp [ReplaceEfiBootEntry.run]
    | some e => simp [ReplaceEfiBootEntry.run]
  · intro system_id fs
    by_cases hid : system_id = "centos"
    · by_cases hany : copySrcFiles.any (fun filename => osPathExists fs filename) = true
      · have hrun : CopyGrubFiles.run system_id fs = copyGrubLoop fs copySrcFiles := by
          simp [CopyGrubFiles.run, hid, hany]
        rw [hrun]
        exact copyGrubLoop_results_length copySrcFiles fs
      · have hany2 : copySrcFiles.any (fun filename => osPathExists fs filename) = false := by
          simpa using hany
        simp [CopyGrubFiles.run, hid, hany2]
        decide
    · simp [CopyGrubFiles.run, hid]


/-- C5: on an EFI system, `NewDefaultEfiBin.run` resolves the first
candidate whose path exists under the RHEL EFI directory (scanning in
candidate order) and then records no result; when and only when no
candidate path exists, it records the single
`NOT_FOUND_RHEL_UEFI_BINARIES` Error whose diagnosis lists every
candidate path, in candidate order. -/
theorem new_default_efi_bin_first_match_or_error (candidates : List String) (fs : FileSystem) :
    (newDefaultEfiBinScan fs candidates).1
      = (candidates.map (fun filename => osPathJoin RHEL_EFIDIR_CANONICAL_PATH filename)).find?
          (fun p => osPathExists fs p) ∧
    (NewDefaultEfiBin.run true candidates fs).results
      = (if ((candidates.map (fun filename => osPathJoin RHEL_EFIDIR_CANONICAL_PATH filename)).find?
              (fun p => osPathExists fs p)).isSome
         then []
         else [notFoundRhelUefiBinariesResult
                (candidates.map (fun filename => osPathJoin RHEL_EFIDIR_CANONICAL_PATH filename))]) := by
  refine ⟨newDefaultEfiBinScan_fst fs candidates, ?_⟩
  have h1 := newDefaultEfiBinScan_fst fs candidates
  cases hfind : (candidates.map (fun filename => osPathJoin RHEL_EFIDIR_CANONICAL_PATH filename)).find?
      (fun p => osPathExists fs p) with
  | some p =>
    rw [hfind] at h1
    simp [NewDefaultEfiBin.run, h1, hfind]
  | none =>
    rw [hfind] at h1
    have hall : ∀ filename ∈ candidates,
        osPathExists fs (osPathJoin RHEL_EFIDIR_CANONICAL_PATH filename) = false := by
      intro f hf
      have hmem : osPathJoin RHEL_EFIDIR_CANONICAL_PATH f
          ∈ candidates.map (fun filename => osPathJoin RHEL_EFIDIR_CANONICAL_PATH filename) :=
        List.mem_map_of_mem _ hf
      have hx := List.find?_eq_none.mp hfind _ hmem
      simpa using hx
    have h2 := newDefaultEfiBinScan_snd fs candidates hall
    simp [NewDefaultEfiBin.run, h1, h2, hfind]

/-- C6: on a centos system where none of the three candidate source files
exists, `CopyGrubFiles.run` records exactly the
`UNABLE_TO_FIND_REQUIRED_FILE_FOR_GRUB_CONFIG` Error whose missing-file
list is exactly the two required files (`grubenv` and `grub.cfg`) and
never the optional `user.cfg`. -/
theorem copy_grub_files_all_missing_error (fs : FileSystem)
    (h : ∀ filename ∈ copySrcFiles, osPathExists fs filename = false) :
    (CopyGrubFiles.run "centos" fs).results
      = [unableToFindResult
          [osPathJoin CENTOS_EFIDIR_CANONICAL_PATH "grubenv",
           osPathJoin CENTOS_EFIDIR_CANONICAL_PATH "grub.cfg"]] := by
  have h1 : osPathExists fs "/boot/efi/EFI/centos/grubenv" = false := h _ (by decide)
  have h2 : osPathExists fs "/boot/efi/EFI/centos/grub.cfg" = false := h _ (by decide)
  have h3 : osPathExists fs "/boot/efi/EFI/centos/user.cfg" = false := h _ (by decide)
  simp [CopyGrubFiles.run, copySrcFiles, grubConfigFilenames, osPathJoin,
    CENTOS_EFIDIR_CANONICAL_PATH, h1, h2, h3, List.filter]

/-- C6 witness: the theorem applied to the empty filesystem, where all
three candidate source files are missing. -/
theorem copy_grub_files_all_missing_error_witness :
    (∀ filename ∈ copySrcFiles, osPathExists ([] : FileSystem) filename = false) ∧
    (CopyGrubFiles.run "centos" []).results
      = [unableToFindResult
          [osPathJoin CENTOS_EFIDIR_CANONICAL_PATH "grubenv",
           osPathJoin CENTOS_EFIDIR_CANONICAL_PATH "grub.cfg"]] :=
  ⟨by decide, copy_grub_files_all_missing_error [] (by decide)⟩

/-- C7: on a centos system, whenever removing the CentOS EFI directory
fails with an OS error, `RemoveEfiCentos.run` records no result (so no
Error) and exactly one WARNING message with id
`NOT_REMOVED_CENTOS_UEFI_DIRECTORY` whose description embeds the
underlying error text. -/
theorem remove_efi_centos_warning_on_failure (fs : FileSystem) (err : OSError)
    (h : osRmdir fs CENTOS_EFIDIR_CANONICAL_PATH = Except.error err) :
    (RemoveEfiCentos.run "centos" fs).results = [] ∧
    (RemoveEfiCentos.run "centos" fs).messages = [notRemovedCentosDirMessage err] ∧
    (RemoveEfiCentos.run "centos" fs).fs = fs ∧
    (notRemovedCentosDirMessage err).level = "WARNING" ∧
    (notRemovedCentosDirMessage err).id = "NOT_REMOVED_CENTOS_UEFI_DIRECTORY" ∧
    (notRemovedCentosDirMessage err).description = removeEfiCentosWarning err := by
  refine ⟨?_, ?_, ?_, rfl, rfl, rfl⟩ <;> simp [RemoveEfiCentos.run, h]

/-- C7 witness: the theorem applied to the empty filesystem, where the
removal fails with `ENOENT`. -/
theorem remove_efi_centos_warning_on_failure_witness :
    (RemoveEfiCentos.run "centos" []).results = [] ∧
    (RemoveEfiCentos.run "centos" []).messages
      = [notRemovedCentosDirMessage (enoentError CENTOS_EFIDIR_CANONICAL_PATH)] ∧
    (RemoveEfiCentos.run "centos" []).fs = [] ∧
    (notRemovedCentosDirMessage (enoentError CENTOS_EFIDIR_CANONICAL_PATH)).level = "WARNING" ∧
    (notRemovedCentosDirMessage (enoentError CENTOS_EFIDIR_CANONICAL_PATH)).id
      = "NOT_REMOVED_CENTOS_UEFI_DIRECTORY" ∧
    (notRemovedCentosDirMessage (enoentError CENTOS_EFIDIR_CANONICAL_PATH)).description
      = removeEfiCentosWarning (enoentError CENTOS_EFIDIR_CANONICAL_PATH) :=
  remove_efi_centos_warning_on_failure [] (enoentError CENTOS_EFIDIR_CANONICAL_PATH) rfl

/-- C8: `ReplaceEfiBootEntry.run` records the single
`FAILED_TO_REPLACE_UEFI_BOOT_ENTRY` Error (whose description embeds the
bootloader error message) exactly when the delegated replacement
procedure raises a bootloader error; on success it records no result and
no message, and it never touches the filesystem. -/
theorem replace_efi_boot_entry_error_iff_raised :
    ∀ (replace_outcome : Option BootloaderError) (fs : FileSystem),
      (ReplaceEfiBootEntry.run replace_outcome fs).fs = fs ∧
      (ReplaceEfiBootEntry.run replace_outcome fs).messages = [] ∧
      (ReplaceEfiBootEntry.run replace_outcome fs).attempts = [] ∧
      (ReplaceEfiBootEntry.run replace_outcome fs).results
        = (match replace_outcome with
           | none => []
           | some e => [failedToReplaceResult e]) := by
  intro replace_outcome fs
  cases replace_outcome <;> simp [ReplaceEfiBootEntry.run]

/-- C9: for a candidate filename whose destination under the RHEL EFI
directory already exists, `CopyGrubFiles.run` leaves that destination
binding unchanged and never attempts a copy for that source file (hence
records no I/O Error for it). -/
theorem copy_grub_files_existing_destination_skipped (system_id : String) (fs : FileSystem)
    (filename : String) (hmem : filename ∈ grubConfigFilenames)
    (hdst : osPathExists fs (osPathJoin RHEL_EFIDIR_CANONICAL_PATH filename) = true) :
    fsLookup (CopyGrubFiles.run system_id fs).fs (osPathJoin RHEL_EFIDIR_CANONICAL_PATH filename)
      = fsLookup fs (osPathJoin RHEL_EFIDIR_CANONICAL_PATH filename) ∧
    osPathJoin CENTOS_EFIDIR_CANONICAL_PATH filename ∉ (CopyGrubFiles.run system_id fs).attempts := by
  have hdst2 : copyDst (osPathJoin CENTOS_EFIDIR_CANONICAL_PATH filename)
      = osPathJoin RHEL_EFIDIR_CANONICAL_PATH filename := by
    simp only [grubConfigFilenames, List.mem_cons, List.not_mem_nil, or_false] at hmem
    rcases hmem with rfl | rfl | rfl <;> rfl
  refine ⟨copyGrubRun_preserve system_id fs _ hdst, ?_⟩
  apply copyGrubRun_no_attempt
  rw [hdst2]
  exact hdst

/-- A filesystem where the destination `grub.cfg` already exists. -/
def fsDstGrubCfg : FileSystem := [("/boot/efi/EFI/redhat/grub.cfg", FsEntry.file "keep")]

/-- C9 witness: the theorem applied to a filesystem that already holds a
destination `grub.cfg`. -/
theorem copy_grub_files_existing_destination_skipped_witness :
    fsLookup (CopyGrubFiles.run "centos" fsDstGrubCfg).fs
        (osPathJoin RHEL_EFIDIR_CANONICAL_PATH "grub.cfg")
      = fsLookup fsDstGrubCfg (osPathJoin RHEL_EFIDIR_CANONICAL_PATH "grub.cfg") ∧
    osPathJoin CENTOS_EFIDIR_CANONICAL_PATH "grub.cfg"
      ∉ (CopyGrubFiles.run "centos" fsDstGrubCfg).attempts :=
  copy_grub_files_existing_destination_skipped "centos" fsDstGrubCfg "grub.cfg"
    (by decide) (by decide)

/-- C10: `RemoveEfiCentos.run` never deletes a regular file — every file
binding survives the run — and whenever some entry still lies under the
CentOS EFI directory, the whole filesystem is left unchanged and the run
completes with the warning message instead of a result. -/
theorem remove_efi_centos_never_deletes_files :
    (∀ (system_id : String) (fs : FileSystem) (p c : String),
        fsLookup fs p = some (FsEntry.file c) →
        fsLookup (RemoveEfiCentos.run system_id fs).fs p = some (FsEntry.file c)) ∧
    (∀ fs : FileSystem, hasEntryUnder fs CENTOS_EFIDIR_CANONICAL_PATH = true →
        (RemoveEfiCentos.run "centos" fs).fs = fs ∧
        (RemoveEfiCentos.run "centos" fs).results = [] ∧
        ∃ err : OSError,
          (RemoveEfiCentos.run "centos" fs).messages = [notRemovedCentosDirMessage err]) := by
  constructor
  · intro system_id fs p c hp
    by_cases hid : system_id = "centos"
    · cases hrm : osRmdir fs CENTOS_EFIDIR_CANONICAL_PATH with
      | error err => simpa [RemoveEfiCentos.run, hid, hrm] using hp
      | ok fs2 =>
        obtain ⟨hdir, hshape⟩ := osRmdir_ok_shape fs CENTOS_EFIDIR_CANONICAL_PATH fs2 hrm
        have hpd : p ≠ CENTOS_EFIDIR_CANONICAL_PATH := by
          intro he
          rw [he, hdir] at hp
          simp at hp
        have hrun : RemoveEfiCentos.run system_id fs
            = { fs := fs2, results := [], messages := [], attempts := [] } := by
          simp [RemoveEfiCentos.run, hid, hrm]
        rw [hrun]
        show fsLookup fs2 p = some (FsEntry.file c)
        rw [hshape, fsLookup_removeKey fs CENTOS_EFIDIR_CANONICAL_PATH p hpd]
        exact hp
    · simpa [RemoveEfiCentos.run, hid] using hp
  · intro fs hu
    obtain ⟨err, herr⟩ := osRmdir_error_of_under fs CENTOS_EFIDIR_CANONICAL_PATH hu
    refine ⟨?_, ?_, ⟨err, ?_⟩⟩ <;> simp [RemoveEfiCentos.run, herr]

/-- A filesystem holding one regular file outside the CentOS EFI
directory. -/
def fsPlainFile : FileSystem := [("/etc/fstab", FsEntry.file "tab")]

/-- A filesystem where the CentOS EFI directory still holds an extra
entry. -/
def fsCentosNonEmpty : FileSystem :=
  [("/boot/efi/EFI/centos", FsEntry.dir),
   ("/boot/efi/EFI/centos/extra.efi", FsEntry.file "x")]

/-- C10 witness: the theorem applied to a filesystem with a plain file
and to one whose CentOS EFI directory is non-empty. -/
theorem remove_efi_centos_never_deletes_files_witness :
    fsLookup (RemoveEfiCentos.run "centos" fsPlainFile).fs "/etc/fstab"
      = some (FsEntry.file "tab") ∧
    ((RemoveEfiCentos.run "centos" fsCentosNonEmpty).fs = fsCentosNonEmpty ∧
     (RemoveEfiCentos.run "centos" fsCentosNonEmpty).results = [] ∧
     ∃ err : OSError,
       (RemoveEfiCentos.run "centos" fsCentosNonEmpty).messages
         = [notRemovedCentosDirMessage err]) :=
  ⟨remove_efi_centos_never_deletes_files.1 "centos" fsPlainFile "/etc/fstab" "tab" rfl,
   remove_efi_centos_never_deletes_files.2 fsCentosNonEmpty (by decide)⟩

end Convert2Rhel
